import Mathlib

/-!
Verification of the client-side session and resource-workflow core of the
Hackathon-Vibecoding repository: the Credential Store, the request gateway
`api`, the resource operations (`login`, `uploadFiles`, …) and the per-screen
workflow controllers (Signup, Dashboard) and the Route Guard.

The TypeScript source is embedded shallowly: the browser localStorage is a
`Store` record, `fetch` responses are explicit `Response` records passed as
arguments, `JSON.parse` is an abstract parameter `parse : String → Option Json`
(`none` models a thrown SyntaxError), and JavaScript truthiness tests are made
explicit.
-/

/-- JSON values, the result type of `JSON.parse` / the gateway. -/
inductive Json where
  | null : Json
  | bool (b : Bool) : Json
  | num (n : Int) : Json
  | str (s : String) : Json
  | arr (xs : List Json) : Json
  | obj (fields : List (String × Json)) : Json
deriving Repr

/-- JavaScript truthiness of a `string | null` value: `null` and the empty
string are falsy, every other string is truthy (`if (token) …`). -/
def strTruthy : Option String → Bool
  | none => false
  | some s => s ≠ ""

/-- JavaScript truthiness of a possibly-undefined JSON value
(`if (data?.access_token) …`): `undefined`, `null`, `false`, `0` and `""` are
falsy, everything else is truthy. -/
def jsTruthy : Option Json → Bool
  | none => false
  | some Json.null => false
  | some (Json.bool b) => b
  | some (Json.num n) => n ≠ 0
  | some (Json.str s) => s ≠ ""
  | some (Json.arr _) => true
  | some (Json.obj _) => true

/-- JavaScript string coercion `String(v)` of a JSON value, as applied by
`localStorage.setItem` to a non-string argument. -/
def jsToString : Json → String
  | Json.null => "null"
  | Json.bool b => if b then "true" else "false"
  | Json.num n => toString n
  | Json.str s => s
  | Json.arr xs => String.intercalate "," (xs.attach.map fun x => jsToString x.1)
  | Json.obj _ => "[object Object]"
termination_by j => sizeOf j
decreasing_by
  have h := List.sizeOf_lt_of_mem x.2
  simp_wf
  omega

/-- Property access `data?.k` on a parsed JSON value: a field lookup when the
value is an object (the last duplicate key wins, as in a JS object), and
`undefined` (`none`) otherwise. -/
def getField (j : Json) (k : String) : Option Json :=
  match j with
  | Json.obj fs => (fs.reverse.find? fun p => p.1 == k).map Prod.snd
  | _ => none

/-- The Credential Store: the two `localStorage` entries `auth_token`
(key `TOKEN_KEY`) and `auth_email` (key `EMAIL_KEY`). `none` models an absent
entry. -/
structure Store where
  token : Option String
  email : Option String
deriving Repr, DecidableEq

/-- `setToken(token)`: store the token under the auth key if truthy, otherwise
remove the stored entry. -/
def setToken (t : Option String) (s : Store) : Store :=
  if strTruthy t then { s with token := t } else { s with token := none }

/-- `getToken()`: read the stored token, `null` if absent. -/
def getToken (s : Store) : Option String := s.token

/-- `setEmail(email)`: same contract as `setToken`, separate key. -/
def setEmail (e : Option String) (s : Store) : Store :=
  if strTruthy e then { s with email := e } else { s with email := none }

/-- `getEmail()`. -/
def getEmail (s : Store) : Option String := s.email

/-- `logout()`: `setToken(null); setEmail(null)`. -/
def logout (s : Store) : Store := setEmail none (setToken none s)

/-- The `ApiError` thrown by the gateway: `message`, `status`, `url`, `body`. -/
structure ApiError where
  message : String
  status : Nat
  url : String
  body : String
deriving Repr, DecidableEq

/-- A settled `fetch` response as the gateway observes it: `res.ok`,
`res.status`, and the text read by `await res.text()`. -/
structure Response where
  ok : Bool
  status : Nat
  text : String
deriving Repr, DecidableEq

/-- JavaScript `a || b` on strings: `b` when `a` is falsy (empty), else `a`. -/
def jsOrStr (a b : String) : String := if a = "" then b else a

/-- Header lookup in the outgoing header object. Headers are built by object
spread and assignment, so later entries overwrite earlier ones: the value of a
key is its last occurrence. -/
def hLookup (hs : List (String × String)) (k : String) : Option String :=
  (hs.reverse.find? fun p => p.1 == k).map Prod.snd

/-- The header object built by `api` (source lines 59–64): start from
`Content-Type: application/json`, spread the caller headers over it,
then assign `Authorization: Bearer <token>` if a token is stored (assignment
comes last, so it overwrites any caller entry for that key). -/
def apiHeaders (s : Store) (callerHeaders : List (String × String)) :
    List (String × String) :=
  let hs := ("Content-Type", "application/json") :: callerHeaders
  if strTruthy (getToken s) then
    hs ++ [("Authorization", "Bearer " ++ (getToken s).getD "")]
  else hs

/-- The response half of `api` (source lines 70–74): read the body text; on a
non-ok status throw `ApiError` with the formatted message, status, original
path and `text OR empty`; on an ok status return `JSON.parse(text)` when the text
is non-empty and parses, and `{}` otherwise. -/
def api (path : String) (parse : String → Option Json) (res : Response) :
    Except ApiError Json :=
  if res.ok then
    if res.text = "" then Except.ok (Json.obj [])
    else
      match parse res.text with
      | some v => Except.ok v
      | none => Except.ok (Json.obj [])
  else
    Except.error
      { message := "Request failed (" ++ toString res.status ++ ")"
        status := res.status
        url := path
        body := jsOrStr res.text "" }

/-- The Credential Store effect of `login(email, password)` (source lines
83–91) on a successful gateway response `data`:
`if (data?.access_token) setToken(data.access_token)`, then
`if (email) setEmail(email)`. -/
def loginStoreUpdate (email : String) (s : Store) (data : Json) : Store :=
  let tok := getField data "access_token"
  let s1 := if jsTruthy tok then setToken (some (jsToString (tok.getD Json.null))) s else s
  if email ≠ "" then setEmail (some email) s1 else s1

/-- `login(email, password)`, continued: on a gateway error the exception
propagates; on success the store is updated and the full response object is
returned. -/
def login (email : String) (s : Store) (gw : Except ApiError Json) :
    Except ApiError (Store × Json) :=
  match gw with
  | Except.error e => Except.error e
  | Except.ok data => Except.ok (loginStoreUpdate email s data, data)

/-- An exception as a workflow catch clause sees it: at most a
`message` property (absent for thrown values with no usable message). -/
structure JsErr where
  message : Option String
deriving Repr, DecidableEq

/-- `err.message || fallback`: the classified message a workflow displays for
an exception — the message carried by the error when truthy, the operation-specific
fallback otherwise. -/
def classify (e : JsErr) (fallback : String) : String :=
  match e.message with
  | some m => jsOrStr m fallback
  | none => fallback

/-- Outcome of `uploadFiles` (source lines 97–112): an `ApiError` on a non-ok
status, a rejected `res.json()` promise when the success body does not parse
as JSON, or the parsed value. -/
inductive UploadOutcome where
  | apiError (e : ApiError) : UploadOutcome
  | jsonParseError : UploadOutcome
  | ok (v : Json) : UploadOutcome
deriving Repr

/-- `uploadFiles(files)`: a direct `fetch` that bypasses the JSON gateway.
On a non-ok status it reads the text and throws the same `ApiError` shape as
the gateway; on an ok status it returns `res.json()`, which rejects when the
body (empty included) is not valid JSON. -/
def uploadFiles (parse : String → Option Json) (res : Response) :
    UploadOutcome :=
  if res.ok then
    match parse res.text with
    | some v => UploadOutcome.ok v
    | none => UploadOutcome.jsonParseError
  else
    UploadOutcome.apiError
      { message := "Request failed (" ++ toString res.status ++ ")"
        status := res.status
        url := "/api/files/upload"
        body := jsOrStr res.text "" }

/-- The headers of the `uploadFiles` fetch: only `Authorization` when a token
is stored, no headers at all otherwise (the transport sets the multipart
boundary). -/
def uploadHeaders (s : Store) : List (String × String) :=
  if strTruthy (getToken s) then
    [("Authorization", "Bearer " ++ (getToken s).getD "")]
  else []

/-- Observable outcome of one run of the Signup `onSubmit` handler
(Signup.tsx lines 21–38). -/
structure SignupRun where
  loginCalled : Bool
  navigatedTo : Option String
  error : Option String
  loading : Bool
deriving Repr, DecidableEq

/-- The Signup `onSubmit` sequence: `await register(…)` then `await login(…)`
then `navigate` to the dashboard route, inside one try/catch whose handler displays
`err.message` with fallback "Failed to sign up"; the finally block clears `loading`.
`regResult` and `loginResult` are the settlements of the two operations
(`loginResult` is consulted only if `register` resolved). -/
def signupSubmit (regResult : Except JsErr Unit)
    (loginResult : Except JsErr Unit) : SignupRun :=
  match regResult with
  | Except.error e =>
    { loginCalled := false, navigatedTo := none
      error := some (classify e "Failed to sign up"), loading := false }
  | Except.ok _ =>
    match loginResult with
    | Except.error e =>
      { loginCalled := true, navigatedTo := none
        error := some (classify e "Failed to sign up"), loading := false }
    | Except.ok _ =>
      { loginCalled := true, navigatedTo := some "/dashboard"
        error := none, loading := false }

/-- A file row of the Dashboard list state. -/
structure FileRecord where
  id : Nat
  filename : String
  created_at : String
deriving Repr, DecidableEq

/-- The state of the Dashboard controller (Dashboard.tsx): the `files`, `uploading`,
`building` and `message` hooks, plus a counter of `buildRag` calls issued (for
the at-most-one-in-flight property). -/
structure DashState where
  files : List FileRecord
  uploading : Bool
  building : Bool
  message : Option String
  buildCalls : Nat
deriving Repr, DecidableEq

/-- The initial Dashboard state: empty list, not uploading, not building, no
message. -/
def dashInit : DashState :=
  { files := [], uploading := false, building := false, message := none
    buildCalls := 0 }

/-- `refresh()` (Dashboard.tsx lines 10–17), given the settlement of
`listFiles()`: on success `setFiles(data)`; on failure
`setMessage` of `e.message` with fallback "Failed to list files". -/
def refresh (s : DashState) (r : Except JsErr (List FileRecord)) : DashState :=
  match r with
  | Except.ok data => { s with files := data }
  | Except.error e =>
    { s with message := some (classify e "Failed to list files") }

/-- The body of `onBuildRag()` (Dashboard.tsx lines 41–52) up to its await
point: `setBuilding(true); setMessage(null)` and the `buildRag()` call is
issued. -/
def buildRagStart (s : DashState) : DashState :=
  { s with building := true, message := none, buildCalls := s.buildCalls + 1 }

/-- `res.files_indexed` with nullish fallback of a question mark, interpolated into the success message: the
string rendering of the field, with a question mark for an absent or null field. -/
def filesIndexedText (res : Json) : String :=
  match getField res "files_indexed" with
  | none => "?"
  | some Json.null => "?"
  | some v => jsToString v

/-- The rest of `onBuildRag()` once `buildRag()` settles: the success message
interpolates the indexed-file count, the catch displays the classified
message, and the finally block clears `building`. -/
def buildRagSettle (s : DashState) (r : Except JsErr Json) : DashState :=
  match r with
  | Except.ok res =>
    { s with building := false
             message := some ("RAG built: " ++ filesIndexedText res ++ " files indexed") }
  | Except.error e =>
    { s with building := false
             message := some (classify e "Failed to build RAG") }

/-- The `disabled` attribute and label of a rendered Dashboard control. -/
structure ControlView where
  disabled : Bool
  label : String
deriving Repr, DecidableEq

/-- The rendered Build RAG button (Dashboard.tsx line 64):
`disabled={building}`, label `Building…` while building. -/
def renderBuildButton (s : DashState) : ControlView :=
  { disabled := s.building
    label := if s.building then "Building…" else "Build RAG" }

/-- The rendered file-selection input of the upload sub-workflow
(Dashboard.tsx lines 60–62): the `<input type="file">` element carries no
`disabled` attribute in the source, so it is never disabled; only the
text of the surrounding label reflects `uploading`. -/
def renderUploadInput (s : DashState) : ControlView :=
  { disabled := false
    label := if s.uploading then "Uploading…" else "Upload files" }

/-- A click on the Build RAG button: the browser delivers the event to
`onBuildRag` only when the button is not disabled; otherwise nothing happens. -/
def clickBuild (s : DashState) : DashState :=
  if (renderBuildButton s).disabled then s else buildRagStart s

/-- `n` consecutive click events on the Build RAG button, delivered with no
other event (in particular no settlement of a pending build) in between. -/
def clicksN : Nat → DashState → DashState
  | 0, s => s
  | n + 1, s => clicksN n (clickBuild s)

/-- What the Route Guard renders. -/
inductive GuardRender where
  | redirect (dest : String) (fromLocation : String) (replace : Bool) : GuardRender
  | children (screen : String) : GuardRender
deriving Repr, DecidableEq

/-- `ProtectedRoute` (ProtectedRoute.tsx lines 5–12): read the token; if it is
falsy, render `<Navigate to="/login" state={{from: location}} replace />`;
otherwise render the children unchanged. -/
def ProtectedRoute (s : Store) (location : String) (screen : String) :
    GuardRender :=
  if strTruthy (getToken s) then GuardRender.children screen
  else GuardRender.redirect "/login" location true

/-! ## Helper lemmas -/

/-- `text OR empty` is the text itself. -/
theorem jsOrStr_empty (t : String) : jsOrStr t "" = t := by
  unfold jsOrStr
  split <;> simp_all

/-- Looking up the key of the entry appended last finds its value. -/
theorem hLookup_append_last (hs : List (String × String)) (k v : String) :
    hLookup (hs ++ [(k, v)]) k = some v := by
  simp [hLookup, List.find?_cons_of_pos]

/-- Looking up a key different from the head entry skips the head. -/
theorem hLookup_cons_ne (c : String × String) (hs : List (String × String))
    (k : String) (h : (c.1 == k) = false) :
    hLookup (c :: hs) k = hLookup hs k := by
  simp only [hLookup, List.reverse_cons, List.find?_append]
  cases hfind : List.find? (fun p => p.1 == k) hs.reverse <;>
    simp [hfind, List.find?, h]

/-- A click on the Build RAG button while a build is pending is a no-op. -/
theorem clickBuild_busy (s : DashState) (h : s.building = true) :
    clickBuild s = s := by
  simp [clickBuild, renderBuildButton, h]

/-- Any number of clicks on the Build RAG button while a build is pending is a
no-op. -/
theorem clicksN_busy (n : Nat) (s : DashState) (h : s.building = true) :
    clicksN n s = s := by
  induction n with
  | zero => rfl
  | succ n ih =>
    show clicksN n (clickBuild s) = s
    rw [clickBuild_busy s h, ih]

/-! ## Claims -/

/-- C1: for every path and parse oracle, when `api` receives an ok response
whose body is the empty string or does not parse as JSON it returns the empty
object (and throws nothing); when the body parses it returns the parsed
value. -/
theorem api_success_parsing (path : String) (parse : String → Option Json)
    (res : Response) (hok : res.ok = true) :
    ((res.text = "" ∨ parse res.text = none) →
      api path parse res = Except.ok (Json.obj [])) ∧
    (∀ v, res.text ≠ "" → parse res.text = some v →
      api path parse res = Except.ok v) := by
  constructor
  · rintro (h | h)
    · simp [api, hok, h]
    · by_cases ht : res.text = "" <;> simp [api, hok, ht, h]
  · intro v ht hp
    simp [api, hok, ht, hp]

/-- Witness for C1: a concrete ok response with the unparsable body "oops"
yields the empty object, and one with a parsable body yields the parsed
value. -/
theorem api_success_parsing_witness :
    api "/api/files" (fun _ => none) ⟨true, 200, "oops"⟩ =
        Except.ok (Json.obj []) ∧
      api "/api/files" (fun _ => some (Json.num 5)) ⟨true, 200, "5"⟩ =
        Except.ok (Json.num 5) :=
  ⟨(api_success_parsing "/api/files" (fun _ => none) ⟨true, 200, "oops"⟩
      rfl).1 (Or.inr rfl),
   (api_success_parsing "/api/files" (fun _ => some (Json.num 5))
      ⟨true, 200, "5"⟩ rfl).2 (Json.num 5) (by decide) rfl⟩

/-- C2: `api` throws an `ApiError` if and only if the response is non-ok, and
the thrown error carries the formatted summary, the exact response text as the
body, and the original path as the url. -/
theorem api_error_characterization (path : String)
    (parse : String → Option Json) (res : Response) :
    ((∃ e, api path parse res = Except.error e) ↔ res.ok = false) ∧
    (res.ok = false →
      api path parse res = Except.error
        { message := "Request failed (" ++ toString res.status ++ ")"
          status := res.status
          url := path
          body := res.text }) := by
  obtain ⟨ok, status, text⟩ := res
  cases ok
  · refine ⟨⟨fun _ => rfl, fun _ => ⟨_, rfl⟩⟩, fun _ => ?_⟩
    show api path parse ⟨false, status, text⟩ = _
    simp [api, jsOrStr_empty]
  · constructor
    · constructor
      · rintro ⟨e, he⟩
        by_cases ht : text = ""
        · simp [api, ht] at he
        · cases hp : parse text <;> simp [api, ht, hp] at he
      · intro h
        simp at h
    · intro h
      simp at h

/-- Witness for C2: a concrete 404 response with body "Not found" throws the
matching `ApiError`, and a concrete ok response throws nothing. -/
theorem api_error_characterization_witness :
    api "/api/files" (fun _ => none) ⟨false, 404, "Not found"⟩ =
        Except.error
          { message := "Request failed (404)", status := 404
            url := "/api/files", body := "Not found" } ∧
      ¬∃ e, api "/api/files" (fun _ => none) ⟨true, 200, ""⟩ =
        Except.error e :=
  ⟨by
    have h := (api_error_characterization "/api/files" (fun _ => none)
      ⟨false, 404, "Not found"⟩).2 rfl
    simpa using h,
   fun hex =>
    Bool.noConfusion
      ((api_error_characterization "/api/files" (fun _ => none)
        ⟨true, 200, ""⟩).1.mp hex)⟩

/-- Counterexample to C3: with no token stored, a caller-supplied
`Authorization` header is passed through to the outgoing request, so the
header is not absent whenever no token is stored. -/
theorem apiHeaders_caller_auth_passthrough :
    getToken ⟨none, none⟩ = none ∧
      hLookup (apiHeaders ⟨none, none⟩ [("Authorization", "X")])
        "Authorization" = some "X" := by
  constructor
  · rfl
  · rfl

/-- C3 (amended): whenever a token is stored, the outgoing `Authorization`
header equals `Bearer <token>` regardless of caller-supplied headers (the
gateway applies it last, so callers cannot override it); when no token is
stored the gateway adds no `Authorization` header of its own, and the outgoing
value is exactly whatever the caller supplied. -/
theorem apiHeaders_authorization (s : Store)
    (hdrs : List (String × String)) :
    (∀ t, getToken s = some t → t ≠ "" →
      hLookup (apiHeaders s hdrs) "Authorization" =
        some ("Bearer " ++ t)) ∧
    (strTruthy (getToken s) = false →
      hLookup (apiHeaders s hdrs) "Authorization" =
        hLookup hdrs "Authorization") := by
  constructor
  · intro t ht hne
    have htr : strTruthy (getToken s) = true := by
      rw [ht]; simpa [strTruthy] using hne
    unfold apiHeaders
    rw [htr]
    simp only [if_true, ht, Option.getD_some]
    exact hLookup_append_last _ _ _
  · intro hfalse
    unfold apiHeaders
    rw [hfalse]
    simp only [Bool.false_eq_true, if_false]
    exact hLookup_cons_ne _ _ _ (by decide)

/-- Witness for C3 (amended): with token "T" stored and a caller attempting to
override `Authorization`, the outgoing header is still `Bearer T`; with no
token and no caller header, no `Authorization` header goes out. -/
theorem apiHeaders_authorization_witness :
    hLookup (apiHeaders ⟨some "T", none⟩ [("Authorization", "evil")])
        "Authorization" = some "Bearer T" ∧
      hLookup (apiHeaders ⟨none, none⟩ [("X-Custom", "1")])
        "Authorization" = none :=
  ⟨(apiHeaders_authorization ⟨some "T", none⟩
      [("Authorization", "evil")]).1 "T" rfl (by decide),
   by
    have h := (apiHeaders_authorization ⟨none, none⟩
      [("X-Custom", "1")]).2 rfl
    simpa using h⟩

/-- Counterexample to C4: a login with empty email argument and a
token-bearing response stores the token but leaves a previously stored email
in place — it does not clear it. -/
theorem login_empty_email_not_cleared :
    login "" ⟨none, some "old"⟩
        (Except.ok (Json.obj [("access_token", Json.str "T")])) =
      Except.ok
        (⟨some "T", some "old"⟩,
          Json.obj [("access_token", Json.str "T")]) := by
  simp [login, loginStoreUpdate, getField, jsTruthy, setToken, setEmail,
    strTruthy, jsToString, List.find?]

/-- C4 (amended): on a success response carrying a non-empty string token,
`login` stores the token; a non-empty email argument is stored as the display
email, while an empty email argument leaves the stored email unchanged
(it is neither set nor cleared); the full response object is returned. -/
theorem login_success_effects (email : String) (s : Store) (data : Json)
    (t : String) (htok : getField data "access_token" = some (Json.str t))
    (ht : t ≠ "") :
    login email s (Except.ok data) =
        Except.ok (loginStoreUpdate email s data, data) ∧
      (loginStoreUpdate email s data).token = some t ∧
      (email ≠ "" → (loginStoreUpdate email s data).email = some email) ∧
      (email = "" → (loginStoreUpdate email s data).email = s.email) := by
  have htr : jsTruthy (getField data "access_token") = true := by
    rw [htok]; simpa [jsTruthy] using ht
  refine ⟨rfl, ?_, ?_, ?_⟩
  · simp only [loginStoreUpdate, htr, if_true, htok, Option.getD_some,
      jsToString]
    by_cases he : email = "" <;>
      simp [he, setToken, setEmail, strTruthy, jsTruthy, ht]
  · intro he
    simp [loginStoreUpdate, he, setEmail, strTruthy]
  · intro he
    simp only [loginStoreUpdate, htr, if_true, htok, Option.getD_some,
      jsToString]
    simp [he, setToken, strTruthy, jsTruthy, ht]

/-- Witness for C4 (amended), the concrete scenario of the specification:
login with email address, password and a response carrying token "T" and a
user object stores token "T", stores the email, and returns the full response
object. -/
theorem login_success_effects_witness :
    login "a@b.com" ⟨none, none⟩
          (Except.ok (Json.obj
            [("access_token", Json.str "T"),
             ("user", Json.obj [("id", Json.num 1)])])) =
        Except.ok
          (loginStoreUpdate "a@b.com" ⟨none, none⟩
            (Json.obj
              [("access_token", Json.str "T"),
               ("user", Json.obj [("id", Json.num 1)])]),
           Json.obj
             [("access_token", Json.str "T"),
              ("user", Json.obj [("id", Json.num 1)])]) ∧
      (loginStoreUpdate "a@b.com" ⟨none, none⟩
        (Json.obj
          [("access_token", Json.str "T"),
           ("user", Json.obj [("id", Json.num 1)])])).token = some "T" ∧
      (loginStoreUpdate "a@b.com" ⟨none, none⟩
        (Json.obj
          [("access_token", Json.str "T"),
           ("user", Json.obj [("id", Json.num 1)])])).email =
        some "a@b.com" := by
  have h := login_success_effects "a@b.com" ⟨none, none⟩
    (Json.obj
      [("access_token", Json.str "T"),
       ("user", Json.obj [("id", Json.num 1)])]) "T" (by rfl) (by decide)
  exact ⟨h.1, h.2.1, h.2.2.1 (by decide)⟩

/-- C10: a successful login whose response does not carry a non-empty
`access_token` field leaves the previously stored token unchanged, whatever
the prior Credential Store state. -/
theorem login_token_frame (email : String) (s : Store) (data : Json)
    (h : getField data "access_token" = none ∨
      getField data "access_token" = some (Json.str "")) :
    (loginStoreUpdate email s data).token = s.token ∧
      login email s (Except.ok data) =
        Except.ok (loginStoreUpdate email s data, data) := by
  have hfalse : jsTruthy (getField data "access_token") = false := by
    rcases h with h | h <;> rw [h] <;> simp [jsTruthy]
  refine ⟨?_, rfl⟩
  simp only [loginStoreUpdate, hfalse, Bool.false_eq_true, if_false]
  by_cases he : email = "" <;> simp [he, setEmail, strTruthy]

/-- Witness for C10: a success response with only a user field, over a store
holding token "OLD", leaves the stored token "OLD". -/
theorem login_token_frame_witness :
    (loginStoreUpdate "x@y.z" ⟨some "OLD", none⟩
      (Json.obj [("user", Json.obj [("id", Json.num 2)])])).token =
      some "OLD" :=
  (login_token_frame "x@y.z" ⟨some "OLD", none⟩
    (Json.obj [("user", Json.obj [("id", Json.num 2)])])
    (Or.inl rfl)).1

/-- C5: in the Signup submission sequence, `login` is attempted only after
`register` succeeds: a register failure aborts with no login call and no
navigation and displays the classified message; a login failure after a
successful register aborts with the classified message and no navigation. -/
theorem signup_sequencing (reg lg : Except JsErr Unit) (e : JsErr) :
    (reg = Except.error e →
      signupSubmit reg lg =
        { loginCalled := false, navigatedTo := none
          error := some (classify e "Failed to sign up")
          loading := false }) ∧
    (reg = Except.ok () → lg = Except.error e →
      signupSubmit reg lg =
        { loginCalled := true, navigatedTo := none
          error := some (classify e "Failed to sign up")
          loading := false }) := by
  constructor
  · intro hreg
    subst hreg
    rfl
  · intro hreg hlg
    subst hreg
    subst hlg
    rfl

/-- Witness for C5: a concrete register failure with message "taken" yields no
login call and the message "taken"; a concrete login failure after a
successful register yields no navigation and the message "bad creds". -/
theorem signup_sequencing_witness :
    signupSubmit (Except.error ⟨some "taken"⟩) (Except.ok ()) =
        { loginCalled := false, navigatedTo := none
          error := some "taken", loading := false } ∧
      signupSubmit (Except.ok ()) (Except.error ⟨some "bad creds"⟩) =
        { loginCalled := true, navigatedTo := none
          error := some "bad creds", loading := false } := by
  constructor
  · have h := (signup_sequencing (Except.error ⟨some "taken"⟩)
      (Except.ok ()) ⟨some "taken"⟩).1 rfl
    simpa [classify, jsOrStr] using h
  · have h := (signup_sequencing (Except.ok ())
      (Except.error ⟨some "bad creds"⟩) ⟨some "bad creds"⟩).2 rfl rfl
    simpa [classify, jsOrStr] using h

/-- Counterexample to C6: while the upload sub-workflow is Busy
(`uploading = true`), the rendered file-selection input is not disabled — the
source gives the input element no disabled attribute, so the disabling rule
does not extend to it. -/
theorem upload_input_never_disabled :
    (renderUploadInput { dashInit with uploading := true }).disabled =
      false := by
  rfl

/-- C6 (amended): the Build RAG button is disabled exactly while a build is
pending, so every sequence of click events from an idle state with no
settlement in between issues exactly one `buildRag` call — every click after
the first is a no-op; the file-selection input of the upload sub-workflow,
however, is never disabled. -/
theorem build_clicks_single_call (s : DashState) (n : Nat)
    (h : s.building = false) :
    clicksN (n + 1) s = buildRagStart s ∧
      (clicksN (n + 1) s).buildCalls = s.buildCalls + 1 ∧
      (renderBuildButton (buildRagStart s)).disabled = true ∧
      (renderUploadInput (buildRagStart s)).disabled = false := by
  have hclick : clickBuild s = buildRagStart s := by
    simp [clickBuild, renderBuildButton, h]
  have hstep : clicksN (n + 1) s = clicksN n (buildRagStart s) := by
    show clicksN n (clickBuild s) = _
    rw [hclick]
  have hbusy : (buildRagStart s).building = true := rfl
  have hrest : clicksN n (buildRagStart s) = buildRagStart s :=
    clicksN_busy n _ hbusy
  refine ⟨hstep.trans hrest, ?_, rfl, rfl⟩
  rw [hstep, hrest]
  rfl

/-- Witness for C6 (amended): a rapid triple-click of the Build RAG trigger
from the initial Dashboard state issues exactly one `buildRag` call. -/
theorem build_clicks_single_call_witness :
    (clicksN 3 dashInit).buildCalls = 1 :=
  (build_clicks_single_call dashInit 2 rfl).2.1

/-- C7: when the list-refresh `listFiles` call fails, the classified message
is displayed and the existing file list is left unchanged; on success the list
is replaced by the fetched data and the rest of the state is untouched. -/
theorem refresh_frame (s : DashState)
    (r : Except JsErr (List FileRecord)) :
    (∀ e, r = Except.error e →
      refresh s r =
          { s with message := some (classify e "Failed to list files") } ∧
        (refresh s r).files = s.files) ∧
    (∀ data, r = Except.ok data →
      refresh s r = { s with files := data }) := by
  constructor
  · intro e he
    subst he
    exact ⟨rfl, rfl⟩
  · intro data hd
    subst hd
    rfl

/-- Witness for C7: a concrete failed refresh over a one-element list keeps
the list and displays the message; a concrete successful refresh replaces the
list. -/
theorem refresh_frame_witness :
    (refresh { dashInit with files := [⟨1, "a.txt", "2024"⟩] }
        (Except.error ⟨none⟩)).files = [⟨1, "a.txt", "2024"⟩] ∧
      (refresh { dashInit with files := [⟨1, "a.txt", "2024"⟩] }
        (Except.ok [⟨2, "b.txt", "2025"⟩])).files = [⟨2, "b.txt", "2025"⟩] :=
  ⟨((refresh_frame { dashInit with files := [⟨1, "a.txt", "2024"⟩] }
      (Except.error ⟨none⟩)).1 ⟨none⟩ rfl).2,
   by
    rw [(refresh_frame { dashInit with files := [⟨1, "a.txt", "2024"⟩] }
      (Except.ok [⟨2, "b.txt", "2025"⟩])).2 [⟨2, "b.txt", "2025"⟩] rfl]⟩

/-- C8: the Route Guard redirects to the login screen exactly when no truthy
token is stored, carrying the originally requested location in the redirect
state; with a token present it renders the requested screen unchanged. -/
theorem protectedRoute_guard (s : Store) (location screen : String) :
    (strTruthy (getToken s) = false ↔
      ProtectedRoute s location screen =
        GuardRender.redirect "/login" location true) ∧
    (strTruthy (getToken s) = true →
      ProtectedRoute s location screen = GuardRender.children screen) := by
  constructor
  · constructor
    · intro h
      simp [ProtectedRoute, h]
    · intro h
      by_contra hfalse
      have htr : strTruthy (getToken s) = true := by
        cases htv : strTruthy (getToken s)
        · exact absurd htv hfalse
        · rfl
      simp [ProtectedRoute, htr] at h
  · intro h
    simp [ProtectedRoute, h]

/-- Witness for C8: with no token stored the guard redirects to the login
screen remembering the requested location; with token "T" stored it renders
the screen. -/
theorem protectedRoute_guard_witness :
    ProtectedRoute ⟨none, none⟩ "/dashboard" "DashboardScreen" =
        GuardRender.redirect "/login" "/dashboard" true ∧
      ProtectedRoute ⟨some "T", none⟩ "/dashboard" "DashboardScreen" =
        GuardRender.children "DashboardScreen" :=
  ⟨(protectedRoute_guard ⟨none, none⟩ "/dashboard" "DashboardScreen").1.mp
      rfl,
   (protectedRoute_guard ⟨some "T", none⟩ "/dashboard"
      "DashboardScreen").2 (by decide)⟩

/-- C9: unlike the gateway, `uploadFiles` parses a success response with
`res.json()`: on a success response whose body does not parse as JSON (the
empty body included) it rejects with a parse error, while `api` on the very
same response returns the empty object. -/
theorem uploadFiles_strict_parse (parse : String → Option Json)
    (res : Response) (hok : res.ok = true)
    (hp : parse res.text = none) :
    uploadFiles parse res = UploadOutcome.jsonParseError ∧
      ∀ path, api path parse res = Except.ok (Json.obj []) := by
  constructor
  · simp [uploadFiles, hok, hp]
  · intro path
    by_cases ht : res.text = "" <;> simp [api, hok, ht, hp]

/-- Witness for C9: a concrete ok response with empty body makes `uploadFiles`
reject with a parse error while `api` returns the empty object, taking as the
parse oracle one that fails on every input (as JSON.parse does on the empty
string). -/
theorem uploadFiles_strict_parse_witness :
    uploadFiles (fun _ => none) ⟨true, 200, ""⟩ =
        UploadOutcome.jsonParseError ∧
      api "/api/files/upload" (fun _ => none) ⟨true, 200, ""⟩ =
        Except.ok (Json.obj []) :=
  ⟨(uploadFiles_strict_parse (fun _ => none) ⟨true, 200, ""⟩ rfl rfl).1,
   (uploadFiles_strict_parse (fun _ => none) ⟨true, 200, ""⟩ rfl rfl).2
     "/api/files/upload"⟩
